import Mathlib

/-!
Shallow embedding of the PageExplorer instruction-execution engine
(src/page_explorer/page_explorer.py) and proofs of its specified
properties.

The remote browser session is modeled as an oracle: a function from the
call counter and the remote call descriptor to an outcome.  Every remote
call the engine makes is recorded in an event trace, together with every
invocation of the injected wait primitive, so that counting claims
(exactly N sends, one wait per element, ...) become statements about the
trace.  Exception classes are modeled by `ErrKind` together with the two
class predicates that mirror the Python class hierarchy
(ElementNotInteractableException and StaleElementReferenceException are
subclasses of WebDriverException; HTTPError is a separate root).
-/

namespace PE

/-- Supported actions, mirroring the Action enum of the source. -/
inductive Action where
  | clearElements
  | executeScript
  | findElements
  | keyDown
  | keyUp
  | sendKeys
  | wait
deriving DecidableEq, Repr

/-- Exception kinds that remote calls can raise in the source:
urllib3 HTTPError, selenium WebDriverException, and its two subclasses
ElementNotInteractableException and StaleElementReferenceException. -/
inductive ErrKind where
  | httpError
  | webDriver
  | notInteractable
  | staleElement
deriving DecidableEq, Repr

/-- Mirrors `isinstance(e, HTTPError)` for the modeled kinds. -/
def ErrKind.isHTTPError : ErrKind → Bool
  | .httpError => true
  | _ => false

/-- Mirrors `isinstance(e, WebDriverException)` for the modeled kinds:
ElementNotInteractableException and StaleElementReferenceException are
subclasses of WebDriverException in selenium. -/
def ErrKind.isWebDriverException : ErrKind → Bool
  | .webDriver => true
  | .notInteractable => true
  | .staleElement => true
  | _ => false

/-- Mirrors the classes listed in the per-element
`suppress(ElementNotInteractableException, StaleElementReferenceException)`
block of the SEND_KEYS-to-elements loop. -/
def ErrKind.isElementLocal : ErrKind → Bool
  | .notInteractable => true
  | .staleElement => true
  | _ => false

/-- The action-specific payload of an instruction (`value` in the source,
typed `Any` there; the source casts it per action, and the spec declares
mismatched combinations a programming error). -/
inductive Value where
  | none
  | dur (d : ℚ)
  | script (s : String)
  | query (strategy sel : String)
  | key (k : String)
  | keys (ks : List String)
deriving DecidableEq, Repr

/-- Projection used by the WAIT branch (`cast(float, instruction.value)`). -/
def Value.asDur : Value → ℚ
  | .dur d => d
  | _ => 0

/-- Projection used by the EXECUTE_SCRIPT branch. -/
def Value.asScript : Value → String
  | .script s => s
  | _ => ""

/-- Projection used by the FIND_ELEMENTS branch (`**instruction.value`). -/
def Value.asQuery : Value → String × String
  | .query a b => (a, b)
  | _ => ("", "")

/-- Projection used by KEY_DOWN and KEY_UP (`cast(str, instruction.value)`). -/
def Value.asKey : Value → String
  | .key k => k
  | _ => ""

/-- Projection used by SEND_KEYS (`cast(tuple[str, ...], instruction.value)`). -/
def Value.asKeys : Value → List String
  | .keys ks => ks
  | _ => []

/-- Instruction dataclass of the source: action, delay (default 0),
runs (default 1), value. -/
structure Instruction where
  action : Action
  delay : ℚ := 0
  runs : Nat := 1
  value : Value := Value.none
deriving DecidableEq, Repr

/-- A remote call issued to the browser session. -/
inductive RCall where
  | execScript (s : String)
  | findElements (strategy sel : String)
  | keyDown (k : String)
  | keyUp (k : String)
  | sendKeysElem (e : Nat) (ks : List String)
  | sendKeysActive (ks : List String)
deriving DecidableEq, Repr

/-- Outcome of a remote call, chosen by the oracle: success (with an
element list, meaningful for find_elements) or a raised exception. -/
inductive ROut where
  | ok
  | okElems (es : List Nat)
  | err (e : ErrKind)
deriving DecidableEq, Repr

/-- The browser session as an oracle: given the index of the call (calls
are numbered in the order the engine issues them) and the call itself,
the outcome. -/
def Oracle : Type := Nat → RCall → ROut

/-- One observable event of an explore run: an invocation of the injected
wait primitive (wait_cb) with its duration, or a remote call. -/
inductive Event where
  | wait (d : ℚ)
  | call (c : RCall)
deriving DecidableEq, Repr

/-- Engine-local state threaded through the explore loop: the remote call
counter and the Element Selection Context (`elements` local variable,
None or a list of element handles). -/
structure ExpState where
  callNo : Nat
  elements : Option (List Nat)
deriving DecidableEq, Repr

/-- State of the loop at entry to explore: no calls made, no selection. -/
def initState : ExpState := ⟨0, none⟩

/-- Result of executing one instruction (or one sub-loop): new state,
events emitted in order, and the exception escaping it, if any. -/
structure StepOut where
  state : ExpState
  events : List Event
  err : Option ErrKind
deriving DecidableEq, Repr

/-- The SEND_KEYS branch with no active Element Selection:
`for _ in range(runs): actions.send_keys(*value).perform();
if delay > 0: wait_cb(delay)`.  A raised exception aborts the loop
before the wait of that repetition. -/
def sendKeysRuns (o : Oracle) (ks : List String) (d : ℚ) : Nat → ExpState → StepOut
  | 0, s => ⟨s, [], none⟩
  | n + 1, s =>
    let c := RCall.sendKeysActive ks
    let s2 : ExpState := ⟨s.callNo + 1, s.elements⟩
    match o s.callNo c with
    | ROut.err e => ⟨s2, [Event.call c], some e⟩
    | _ =>
      let tail := sendKeysRuns o ks d n s2
      ⟨tail.state,
        (Event.call c :: if 0 < d then [Event.wait d] else []) ++ tail.events,
        tail.err⟩

/-- The SEND_KEYS branch with an active Element Selection:
`for element in elements: with suppress(ElementNotInteractableException,
StaleElementReferenceException): element.send_keys(*value);
if delay > 0: wait_cb(delay)`.  An element-local exception is suppressed
and the per-element wait still happens; any other exception escapes
before the wait of that element. -/
def sendKeysElems (o : Oracle) (ks : List String) (d : ℚ) : List Nat → ExpState → StepOut
  | [], s => ⟨s, [], none⟩
  | e :: rest, s =>
    let c := RCall.sendKeysElem e ks
    let s2 : ExpState := ⟨s.callNo + 1, s.elements⟩
    match o s.callNo c with
    | ROut.err ek =>
      if ek.isElementLocal then
        let tail := sendKeysElems o ks d rest s2
        ⟨tail.state,
          (Event.call c :: if 0 < d then [Event.wait d] else []) ++ tail.events,
          tail.err⟩
      else ⟨s2, [Event.call c], some ek⟩
    | _ =>
      let tail := sendKeysElems o ks d rest s2
      ⟨tail.state,
        (Event.call c :: if 0 < d then [Event.wait d] else []) ++ tail.events,
        tail.err⟩

/-- Execution of one instruction inside the explore loop, following the
if/elif dispatch of the source.  FIND_ELEMENTS replaces the Element
Selection Context on success and leaves it unchanged when the call
raises; CLEAR_ELEMENTS resets it to None; WAIT only invokes the injected
wait primitive and cannot raise a session error. -/
def execInstr (o : Oracle) (s : ExpState) (i : Instruction) : StepOut :=
  match i.action with
  | Action.clearElements => ⟨⟨s.callNo, none⟩, [], none⟩
  | Action.executeScript =>
    let c := RCall.execScript i.value.asScript
    match o s.callNo c with
    | ROut.err e => ⟨⟨s.callNo + 1, s.elements⟩, [Event.call c], some e⟩
    | _ => ⟨⟨s.callNo + 1, s.elements⟩, [Event.call c], none⟩
  | Action.findElements =>
    let c := RCall.findElements i.value.asQuery.1 i.value.asQuery.2
    match o s.callNo c with
    | ROut.err e => ⟨⟨s.callNo + 1, s.elements⟩, [Event.call c], some e⟩
    | ROut.okElems es => ⟨⟨s.callNo + 1, some es⟩, [Event.call c], none⟩
    | ROut.ok => ⟨⟨s.callNo + 1, some []⟩, [Event.call c], none⟩
  | Action.keyDown =>
    let c := RCall.keyDown i.value.asKey
    match o s.callNo c with
    | ROut.err e => ⟨⟨s.callNo + 1, s.elements⟩, [Event.call c], some e⟩
    | _ => ⟨⟨s.callNo + 1, s.elements⟩, [Event.call c], none⟩
  | Action.keyUp =>
    let c := RCall.keyUp i.value.asKey
    match o s.callNo c with
    | ROut.err e => ⟨⟨s.callNo + 1, s.elements⟩, [Event.call c], some e⟩
    | _ => ⟨⟨s.callNo + 1, s.elements⟩, [Event.call c], none⟩
  | Action.sendKeys =>
    match s.elements with
    | some es => sendKeysElems o i.value.asKeys i.delay es s
    | none => sendKeysRuns o i.value.asKeys i.delay i.runs s
  | Action.wait => ⟨s, [Event.wait i.value.asDur], none⟩

/-- Result of the explore loop body: final state, full event trace, the
diagnostic count logged in the finally block (`idx + 1`, the number of
loop iterations entered), and the exception escaping the loop, if any. -/
structure GoOut where
  state : ExpState
  events : List Event
  count : Nat
  err : Option ErrKind
deriving DecidableEq, Repr

/-- The `for instruction in instructions` loop of explore: `idx` is
incremented at the top of each iteration, so an iteration whose
instruction raises still contributes 1 to the logged count. -/
def exploreGo (o : Oracle) : List Instruction → ExpState → GoOut
  | [], s => ⟨s, [], 0, none⟩
  | i :: rest, s =>
    let step := execInstr o s i
    match step.err with
    | some e => ⟨step.state, step.events, 1, some e⟩
    | none =>
      let tail := exploreGo o rest step.state
      ⟨tail.state, step.events ++ tail.events, tail.count + 1, tail.err⟩

/-- Observable outcome of an explore call: the returned boolean, the
diagnostic count (`idx + 1` of the finally block), the event trace, and
the final Element Selection Context. -/
structure ExploreResult where
  success : Bool
  count : Nat
  trace : List Event
  elements : Option (List Nat)
deriving DecidableEq, Repr

/-- PageExplorer.explore: runs the loop inside
`try ... except HTTPError ... except WebDriverException ...`; an
exception of either class yields the boolean False, any other exception
would propagate to the caller (modeled by the `Except.error` branch). -/
def explore (o : Oracle) (instrs : List Instruction) : Except ErrKind ExploreResult :=
  let g := exploreGo o instrs initState
  match g.err with
  | none => Except.ok ⟨true, g.count, g.events, g.state.elements⟩
  | some e =>
    if e.isHTTPError || e.isWebDriverException then
      Except.ok ⟨false, g.count, g.events, g.state.elements⟩
    else Except.error e

/-- The exception escaping the instruction loop, if any: the first
session-fatal error raised by an instruction. -/
def firstFailure (o : Oracle) : List Instruction → ExpState → Option ErrKind
  | [], _ => none
  | i :: rest, s =>
    match (execInstr o s i).err with
    | some e => some e
    | none => firstFailure o rest (execInstr o s i).state

/-- The engine state after attempting each instruction of a list in
order (meaningful along a prefix that raised no error). -/
def runPref (o : Oracle) : List Instruction → ExpState → ExpState
  | [], s => s
  | i :: rest, s => runPref o rest (execInstr o s i).state

/-- Calls that construction could make on the driver object: the
FirefoxDriver creation itself, and the implicit-wait configuration the
modules own tests expect (driver.implicitly_wait). -/
inductive InitCall where
  | createDriver
  | implicitlyWait
deriving DecidableEq, Repr

/-- Outcome of PageExplorer construction: a usable object, a raised
ExplorerError, or an exception of an unhandled class escaping. -/
inductive InitResult where
  | ok (driver : Nat)
  | explorerError (msg : String)
  | uncaught (e : ErrKind)
deriving DecidableEq, Repr

/-- PageExplorer.__init__ as written in the source: it attempts to
create the FirefoxDriver; an HTTPError or a WebDriverException is
converted to `ExplorerError("Failed to create PageExplorer")`; on
success it performs no further driver call before returning (in
particular it never calls implicitly_wait).  The second component is
the list of driver calls made, in order. -/
def pageExplorerInit (createOutcome : Except ErrKind Nat) : InitResult × List InitCall :=
  match createOutcome with
  | Except.ok d => (InitResult.ok d, [InitCall.createDriver])
  | Except.error e =>
    if e.isHTTPError then
      (InitResult.explorerError "Failed to create PageExplorer", [InitCall.createDriver])
    else if e.isWebDriverException then
      (InitResult.explorerError "Failed to create PageExplorer", [InitCall.createDriver])
    else (InitResult.uncaught e, [InitCall.createDriver])

/-- Scoped-acquisition usage `with PageExplorer(...)`: the constructor
runs first; only when it succeeds are the enter hook, the body and the
exit hook run, and the exit hook calls shutdown, which attempts quit
exactly once.  When the constructor raises, the context is never
entered, so the exit hook and shutdown never run.  The result is the
number of quit invocations over the whole statement. -/
def scopedQuitCount (createOutcome : Except ErrKind Nat) : Nat :=
  match (pageExplorerInit createOutcome).1 with
  | InitResult.ok _ => 1
  | _ => 0

/-- The engine object: its only slot is the driver handle. -/
structure Engine where
  driver : Nat
deriving DecidableEq, Repr

/-- The body of shutdown:
`with suppress(HTTPError, WebDriverException): self._driver.quit()`,
applied to the outcome of the quit call (None when quit succeeded). -/
def quitSuppressed (outcome : Option ErrKind) : Except ErrKind Unit :=
  match outcome with
  | none => Except.ok ()
  | some e =>
    if e.isHTTPError || e.isWebDriverException then Except.ok ()
    else Except.error e

/-- PageExplorer.shutdown: attempts quit once, suppressing HTTPError and
WebDriverException; `q i` is the outcome of the i-th quit invocation
(any outcome is allowed, including failures after the session is gone).
Returns the engine (shutdown mutates none of its slots) and the
exception escaping shutdown, if any. -/
def shutdown (q : Nat → Option ErrKind) (eng : Engine) (callIdx : Nat) :
    Engine × Except ErrKind Unit :=
  (eng, quitSuppressed (q callIdx))

/-- A WAIT instruction with the given duration. -/
def waitInstr (d : ℚ) : Instruction := ⟨Action.wait, 0, 1, Value.dur d⟩

/-- An EXECUTE_SCRIPT instruction with the given source string. -/
def scriptInstr (s : String) : Instruction := ⟨Action.executeScript, 0, 1, Value.script s⟩

/-- A FIND_ELEMENTS instruction with a fixed catch-all query. -/
def findInstr : Instruction :=
  ⟨Action.findElements, 0, 1, Value.query "xpath" ".//*"⟩

/-- A SEND_KEYS instruction with the given keys, delay and runs. -/
def sendInstr (ks : List String) (d : ℚ) (runs : Nat) : Instruction :=
  ⟨Action.sendKeys, d, runs, Value.keys ks⟩

/-- An oracle on which every remote call succeeds and find_elements
returns no elements. -/
def okOracle : Oracle := fun _ _ => ROut.ok

/-- An oracle on which every remote call raises WebDriverException. -/
def failOracle : Oracle := fun _ _ => ROut.err ErrKind.webDriver

/-- An oracle whose find_elements returns the handles 0..m-1 and on
which sending keys to element j raises `ek` while every other call
succeeds. -/
def elemLocalOracle (m j : Nat) (ek : ErrKind) : Oracle := fun _ c =>
  match c with
  | RCall.findElements _ _ => ROut.okElems (List.range m)
  | RCall.sendKeysElem e _ => if e = j then ROut.err ek else ROut.ok
  | _ => ROut.ok

/-- An oracle whose find_elements returns the empty list and on which
every other call succeeds. -/
def findEmptyOracle : Oracle := fun _ c =>
  match c with
  | RCall.findElements _ _ => ROut.okElems []
  | _ => ROut.ok

theorem errKind_caught (e : ErrKind) : (e.isHTTPError || e.isWebDriverException) = true := by
  cases e <;> rfl

theorem explore_of_go_ok {o : Oracle} {instrs : List Instruction} {st : ExpState}
    {evs : List Event} {n : Nat} (h : exploreGo o instrs initState = ⟨st, evs, n, none⟩) :
    explore o instrs = Except.ok ⟨true, n, evs, st.elements⟩ := by
  simp [explore, h]

theorem explore_of_go_err {o : Oracle} {instrs : List Instruction} {st : ExpState}
    {evs : List Event} {n : Nat} {e : ErrKind}
    (h : exploreGo o instrs initState = ⟨st, evs, n, some e⟩) :
    explore o instrs = Except.ok ⟨false, n, evs, st.elements⟩ := by
  simp [explore, h, errKind_caught e]

theorem exploreGo_err_eq_firstFailure (o : Oracle) :
    ∀ (l : List Instruction) (s : ExpState), (exploreGo o l s).err = firstFailure o l s := by
  intro l
  induction l with
  | nil => intro s; rfl
  | cons i rest ih =>
    intro s
    cases h : (execInstr o s i).err with
    | some e => simp [exploreGo, firstFailure, h]
    | none => simp [exploreGo, firstFailure, h, ih]

theorem exploreGo_cons_fail {o : Oracle} {s : ExpState} {i : Instruction} {e : ErrKind}
    (l : List Instruction) (h : (execInstr o s i).err = some e) :
    exploreGo o (i :: l) s =
      ⟨(execInstr o s i).state, (execInstr o s i).events, 1, some e⟩ := by
  simp [exploreGo, h]

theorem exploreGo_append (o : Oracle) (l2 : List Instruction) :
    ∀ (pre : List Instruction) (s : ExpState), firstFailure o pre s = none →
      exploreGo o (pre ++ l2) s =
        ⟨(exploreGo o l2 (runPref o pre s)).state,
         (exploreGo o pre s).events ++ (exploreGo o l2 (runPref o pre s)).events,
         pre.length + (exploreGo o l2 (runPref o pre s)).count,
         (exploreGo o l2 (runPref o pre s)).err⟩ := by
  intro pre
  induction pre with
  | nil => intro s _; simp [exploreGo, runPref]
  | cons i rest ih =>
    intro s hpre
    cases h : (execInstr o s i).err with
    | some e => simp [firstFailure, h] at hpre
    | none =>
      have hrest : firstFailure o rest (execInstr o s i).state = none := by
        simpa [firstFailure, h] using hpre
      simp only [List.cons_append, exploreGo, h, List.append_eq]
      rw [ih _ hrest]
      simp only [runPref, List.length_cons]
      simp [List.append_assoc]
      omega

theorem exploreGo_ok_count (o : Oracle) :
    ∀ (l : List Instruction) (s : ExpState), firstFailure o l s = none →
      (exploreGo o l s).count = l.length ∧ (exploreGo o l s).err = none ∧
        (exploreGo o l s).state = runPref o l s := by
  intro l
  induction l with
  | nil => intro s _; exact ⟨rfl, rfl, rfl⟩
  | cons i rest ih =>
    intro s hpre
    cases h : (execInstr o s i).err with
    | some e => simp [firstFailure, h] at hpre
    | none =>
      have hrest : firstFailure o rest (execInstr o s i).state = none := by
        simpa [firstFailure, h] using hpre
      have := ih _ hrest
      simp [exploreGo, runPref, h, this.1, this.2.1, this.2.2]

theorem joinMapSingle {α β : Type} (f : α → β) :
    ∀ (l : List α), (l.map (fun x => [f x])).flatten = l.map f := by
  intro l
  induction l with
  | nil => rfl
  | cons x xs ih => simp [ih]

theorem sendKeysRuns_ok {o : Oracle} {ks : List String} (d : ℚ)
    (h : ∀ n, o n (RCall.sendKeysActive ks) = ROut.ok) :
    ∀ (N : Nat) (s : ExpState), sendKeysRuns o ks d N s =
      ⟨⟨s.callNo + N, s.elements⟩,
       (List.replicate N
         (Event.call (RCall.sendKeysActive ks) :: if 0 < d then [Event.wait d] else [])).flatten,
       none⟩ := by
  intro N
  induction N with
  | zero => intro s; simp [sendKeysRuns]
  | succ n ih =>
    intro s
    have hc : s.callNo + 1 + n = s.callNo + (n + 1) := by omega
    simp only [sendKeysRuns, h, ih, List.replicate_succ, List.flatten_cons]
    simp [hc]

theorem sendKeysElems_local {o : Oracle} {ks : List String} (d : ℚ)
    (h : ∀ n e k, o n (RCall.sendKeysElem e ks) = ROut.err k → k.isElementLocal = true) :
    ∀ (es : List Nat) (s : ExpState), sendKeysElems o ks d es s =
      ⟨⟨s.callNo + es.length, s.elements⟩,
       (es.map (fun e =>
         Event.call (RCall.sendKeysElem e ks) :: if 0 < d then [Event.wait d] else [])).flatten,
       none⟩ := by
  intro es
  induction es with
  | nil => intro s; simp [sendKeysElems]
  | cons e rest ih =>
    intro s
    have ha : s.callNo + 1 + rest.length = s.callNo + (rest.length + 1) := by omega
    cases hc : o s.callNo (RCall.sendKeysElem e ks) with
    | ok =>
      simp only [sendKeysElems, hc, ih, List.map_cons, List.flatten_cons, List.length_cons]
      simp [ha]
    | okElems es2 =>
      simp only [sendKeysElems, hc, ih, List.map_cons, List.flatten_cons, List.length_cons]
      simp [ha]
    | err k =>
      have hk : k.isElementLocal = true := h _ _ _ hc
      simp only [sendKeysElems, hc, hk, if_true, ih, List.map_cons, List.flatten_cons,
        List.length_cons]
      simp [ha]

theorem exploreGo_fail_at (o : Oracle) (pre suf : List Instruction) (i : Instruction)
    (e : ErrKind) (hpre : firstFailure o pre initState = none)
    (hfail : (execInstr o (runPref o pre initState) i).err = some e) :
    exploreGo o (pre ++ i :: suf) initState =
      ⟨(execInstr o (runPref o pre initState) i).state,
       (exploreGo o pre initState).events ++
         (execInstr o (runPref o pre initState) i).events,
       pre.length + 1, some e⟩ := by
  rw [exploreGo_append o (i :: suf) pre initState hpre, exploreGo_cons_fail suf hfail]

theorem explore_trunc (o : Oracle) (pre suf : List Instruction) (i : Instruction)
    (e : ErrKind) (hpre : firstFailure o pre initState = none)
    (hfail : (execInstr o (runPref o pre initState) i).err = some e) :
    explore o (pre ++ i :: suf) = explore o (pre ++ [i]) := by
  have h1 := exploreGo_fail_at o pre suf i e hpre hfail
  have h2 := exploreGo_fail_at o pre [] i e hpre hfail
  simp [explore, h1, h2]

/-- Claim C1: explore never propagates an error to its caller (it always
returns an `Except.ok` boolean), the boolean is true exactly when every
instruction in the sequence executed without a session-fatal error, and a
session-fatal error raised by any instruction aborts the remaining
instructions: the run coincides with the run of the sequence truncated
right after the failing instruction. -/
theorem claim_C1_explore_boundary (o : Oracle) (instrs : List Instruction) :
    (∃ r, explore o instrs = Except.ok r ∧
      (r.success = true ↔ firstFailure o instrs initState = none)) ∧
    (∀ (pre suf : List Instruction) (i : Instruction) (e : ErrKind),
      instrs = pre ++ i :: suf →
      firstFailure o pre initState = none →
      (execInstr o (runPref o pre initState) i).err = some e →
      explore o instrs = explore o (pre ++ [i])) := by
  constructor
  · cases herr : (exploreGo o instrs initState).err with
    | none =>
      refine ⟨⟨true, (exploreGo o instrs initState).count,
        (exploreGo o instrs initState).events,
        (exploreGo o instrs initState).state.elements⟩, ?_, ?_⟩
      · simp [explore, herr]
      · rw [← exploreGo_err_eq_firstFailure o instrs initState, herr]
        simp
    | some e =>
      refine ⟨⟨false, (exploreGo o instrs initState).count,
        (exploreGo o instrs initState).events,
        (exploreGo o instrs initState).state.elements⟩, ?_, ?_⟩
      · simp [explore, herr, errKind_caught e]
      · rw [← exploreGo_err_eq_firstFailure o instrs initState, herr]
        simp
  · intro pre suf i e hsplit hpre hfail
    subst hsplit
    exact explore_trunc o pre suf i e hpre hfail

/-- Witness for C1: on a sequence whose first instruction raises a
session-fatal error, the run equals the run truncated after that
instruction. -/
theorem claim_C1_witness :
    explore failOracle [scriptInstr "x", waitInstr 1] =
      explore failOracle ([] ++ [scriptInstr "x"]) :=
  (claim_C1_explore_boundary failOracle [scriptInstr "x", waitInstr 1]).2
    [] [waitInstr 1] (scriptInstr "x") ErrKind.webDriver rfl rfl rfl

/-- Counterexample to C2 as stated: a one-instruction sequence whose only
instruction raises a session-fatal WebDriverException makes explore
return false with a tracked count of 1 — equal to the sequence length,
not strictly less than it (idx is incremented before the instruction
body runs, so the failing instruction is counted). -/
theorem claim_C2_counterexample :
    explore failOracle [scriptInstr "x"] =
      Except.ok ⟨false, 1, [Event.call (RCall.execScript "x")], none⟩ ∧
    ¬ ((1 : Nat) < [scriptInstr "x"].length) := by
  constructor
  · rfl
  · decide

/-- Claim C2 (amended): if every instruction of the prefix `pre` executes
cleanly and the next instruction raises a session-fatal error, explore
returns false, no instruction after the failing one executes (the run
equals the run of the sequence truncated after the failing instruction),
and the tracked count is the index of the failing instruction plus one,
which is at most — but not always strictly less than — the sequence
length (they are equal exactly when the failing instruction is last). -/
theorem claim_C2_fail_stops (o : Oracle) (pre suf : List Instruction)
    (i : Instruction) (e : ErrKind)
    (hpre : firstFailure o pre initState = none)
    (hfail : (execInstr o (runPref o pre initState) i).err = some e) :
    ∃ r, explore o (pre ++ i :: suf) = Except.ok r ∧ r.success = false ∧
      explore o (pre ++ i :: suf) = explore o (pre ++ [i]) ∧
      r.count = pre.length + 1 ∧ r.count ≤ (pre ++ i :: suf).length := by
  have h1 := exploreGo_fail_at o pre suf i e hpre hfail
  refine ⟨⟨false, pre.length + 1,
    (exploreGo o pre initState).events ++
      (execInstr o (runPref o pre initState) i).events,
    (execInstr o (runPref o pre initState) i).state.elements⟩,
    explore_of_go_err h1, rfl, explore_trunc o pre suf i e hpre hfail, rfl, ?_⟩
  simp

/-- Witness for C2 (amended): concrete one-instruction failing run. -/
theorem claim_C2_witness :
    ∃ r, explore failOracle ([] ++ scriptInstr "x" :: [waitInstr 1]) = Except.ok r ∧
      r.success = false ∧
      explore failOracle ([] ++ scriptInstr "x" :: [waitInstr 1]) =
        explore failOracle ([] ++ [scriptInstr "x"]) ∧
      r.count = List.length ([] : List Instruction) + 1 ∧
      r.count ≤ ([] ++ scriptInstr "x" :: [waitInstr 1]).length :=
  claim_C2_fail_stops failOracle [] [waitInstr 1] (scriptInstr "x")
    ErrKind.webDriver rfl rfl

/-- Claim C3: the spec (and the modules own test, which asserts
`implicitly_wait.call_count == 1` and that a raised error from it is
swallowed with construction still succeeding) says construction applies
an implicit per-command wait budget as an additional configuration step.
In the source, __init__ returns right after creating the driver: the
driver-call trace of a successful construction contains no
implicitly_wait call at all.  The code contradicts its own test, so this
is recorded as a code bug; this theorem evaluates the embedded
constructor at the failing input (a successful driver creation). -/
theorem claim_C3_no_implicit_wait :
    (pageExplorerInit (Except.ok 0)).1 = InitResult.ok 0 ∧
    (pageExplorerInit (Except.ok 0)).2.count InitCall.implicitlyWait = 0 := by
  decide

/-- Counterexample to C4 as stated: when driver creation raises an
HTTPError, the constructor raises ExplorerError before the context is
ever entered, so the scoped exit hook — and with it shutdown and quit —
runs zero times, not exactly once. -/
theorem claim_C4_counterexample :
    ¬ (scopedQuitCount (Except.error ErrKind.httpError) = 1) := by
  decide

/-- Claim C4 (amended): construction reports the single collapsed
ExplorerError kind for every modeled failure class of driver creation
(the transport-failure HTTPError class and the protocol-failure
WebDriverException class, which covers all four modeled kinds), and in
scoped-acquisition usage the quit teardown runs zero times on the
construction-failure path (the context manager never enters, so the exit
hook never fires) and exactly once when construction succeeds. -/
theorem claim_C4_collapsed_error (e : ErrKind) :
    (pageExplorerInit (Except.error e)).1 =
      InitResult.explorerError "Failed to create PageExplorer" ∧
    scopedQuitCount (Except.error e) = 0 ∧
    scopedQuitCount (Except.ok 0) = 1 := by
  cases e <;> exact ⟨rfl, rfl, rfl⟩

theorem waitGo (o : Oracle) : ∀ (ds : List ℚ) (s : ExpState),
    exploreGo o (ds.map waitInstr) s = ⟨s, ds.map Event.wait, ds.length, none⟩ := by
  intro ds
  induction ds with
  | nil => intro s; rfl
  | cons d rest ih =>
    intro s
    have h1 : execInstr o s (waitInstr d) = ⟨s, [Event.wait d], none⟩ := rfl
    simp [exploreGo, h1, ih]

/-- Claim C6: on a sequence of WAIT instructions the boolean is true for
every oracle (no remote call is made) and the injected wait primitive is
invoked exactly once per instruction, with exactly the durations of the
instructions, in sequence order. -/
theorem claim_C6_wait_only (o : Oracle) (ds : List ℚ) :
    explore o (ds.map waitInstr) =
      Except.ok ⟨true, ds.length, ds.map Event.wait, none⟩ :=
  explore_of_go_ok (waitGo o ds initState)

/-- Claim C7: a SEND_KEYS instruction with runs = N and delay d > 0,
executed with no active Element Selection on a session whose key-send
calls succeed, invokes the key-send primitive exactly N times and the
wait primitive exactly N times, once after each repetition. -/
theorem claim_C7_runs_send (N : Nat) (d : ℚ) (ks : List String) (o : Oracle)
    (hN : 1 ≤ N) (hd : 0 < d)
    (h : ∀ n, o n (RCall.sendKeysActive ks) = ROut.ok) :
    explore o [sendInstr ks d N] =
      Except.ok ⟨true, 1,
        (List.replicate N [Event.call (RCall.sendKeysActive ks), Event.wait d]).flatten,
        none⟩ := by
  have hstep : execInstr o initState (sendInstr ks d N) =
      ⟨⟨N, none⟩,
       (List.replicate N [Event.call (RCall.sendKeysActive ks), Event.wait d]).flatten,
       none⟩ := by
    have hr := sendKeysRuns_ok d h N initState
    simpa [execInstr, sendInstr, Value.asKeys, hd, initState] using hr
  have hgo : exploreGo o [sendInstr ks d N] initState =
      ⟨⟨N, none⟩,
       (List.replicate N [Event.call (RCall.sendKeysActive ks), Event.wait d]).flatten,
       1, none⟩ := by
    simp [exploreGo, hstep]
  exact explore_of_go_ok hgo

/-- Witness for C7 at N = 1, d = 1 on the all-ok oracle. -/
theorem claim_C7_witness :
    explore okOracle [sendInstr ["a"] 1 1] =
      Except.ok ⟨true, 1,
        (List.replicate 1 [Event.call (RCall.sendKeysActive ["a"]), Event.wait 1]).flatten,
        none⟩ :=
  claim_C7_runs_send 1 1 ["a"] okOracle (by decide) (by norm_num)
    (fun _ => rfl)

/-- Claim C8: after a FIND_ELEMENTS instruction that returns the empty
element list, a SEND_KEYS instruction performs zero per-element sends
and zero waits — regardless of its runs and delay fields, so it does not
fall back to runs-based sending — and explore still returns true.  The
whole trace is the single find_elements call. -/
theorem claim_C8_empty_selection (ks : List String) (d : ℚ) (runs : Nat) :
    explore findEmptyOracle [findInstr, sendInstr ks d runs] =
      Except.ok ⟨true, 2, [Event.call (RCall.findElements "xpath" ".//*")], some []⟩ := by
  have hfind : execInstr findEmptyOracle initState findInstr =
      ⟨⟨1, some []⟩, [Event.call (RCall.findElements "xpath" ".//*")], none⟩ := rfl
  have hsend : execInstr findEmptyOracle ⟨1, some []⟩ (sendInstr ks d runs) =
      ⟨⟨1, some []⟩, [], none⟩ := rfl
  have hgo : exploreGo findEmptyOracle [findInstr, sendInstr ks d runs] initState =
      ⟨⟨1, some []⟩, [Event.call (RCall.findElements "xpath" ".//*")], 2, none⟩ := by
    simp [exploreGo, hfind, hsend]
  exact explore_of_go_ok hgo

/-- Claim C9: shutdown never raises (the quit failure is suppressed for
every modeled outcome, including a session that is already gone), it
leaves every engine slot unchanged, and calling it again produces
exactly the same engine state as a single call. -/
theorem claim_C9_shutdown_idempotent (q : Nat → Option ErrKind) (eng : Engine)
    (i j : Nat) :
    (shutdown q eng i).2 = Except.ok () ∧
    (shutdown q eng i).1 = eng ∧
    shutdown q (shutdown q eng i).1 j = shutdown q eng j := by
  refine ⟨?_, rfl, rfl⟩
  unfold shutdown quitSuppressed
  cases hq : q i with
  | none => rfl
  | some e => simp [errKind_caught e]

theorem elemLocalOracle_local {m j : Nat} {ek : ErrKind}
    (hek : ek = ErrKind.notInteractable ∨ ek = ErrKind.staleElement) :
    ∀ (n e : Nat) (ks : List String) (k : ErrKind),
      elemLocalOracle m j ek n (RCall.sendKeysElem e ks) = ROut.err k →
        k.isElementLocal = true := by
  intro n e ks k h
  by_cases hej : e = j
  · simp [elemLocalOracle, hej] at h
    rcases hek with h2 | h2 <;> rw [← h, h2] <;> rfl
  · simp [elemLocalOracle, hej] at h

/-- Claim C5: with an Element Selection of m handles, a SEND_KEYS
instruction on which sending to element j raises an element-local error
(not interactable or stale) still attempts the send on every element in
order — the error is suppressed per element — and explore returns true
with the rest of the sequence (here a trailing EXECUTE_SCRIPT) still
executed. -/
theorem claim_C5_element_local (m j : Nat) (ks : List String) (ek : ErrKind)
    (hj : j < m) (hek : ek = ErrKind.notInteractable ∨ ek = ErrKind.staleElement) :
    explore (elemLocalOracle m j ek) [findInstr, sendInstr ks 0 1, scriptInstr "s"] =
      Except.ok ⟨true, 3,
        Event.call (RCall.findElements "xpath" ".//*") ::
          ((List.range m).map (fun e => Event.call (RCall.sendKeysElem e ks)) ++
            [Event.call (RCall.execScript "s")]),
        some (List.range m)⟩ := by
  have hlocal : ∀ n e k, elemLocalOracle m j ek n (RCall.sendKeysElem e ks) = ROut.err k →
      k.isElementLocal = true := fun n e k h => elemLocalOracle_local hek n e ks k h
  have hfind : execInstr (elemLocalOracle m j ek) initState findInstr =
      ⟨⟨1, some (List.range m)⟩, [Event.call (RCall.findElements "xpath" ".//*")],
       none⟩ := rfl
  have hsend : execInstr (elemLocalOracle m j ek) ⟨1, some (List.range m)⟩
      (sendInstr ks 0 1) =
      ⟨⟨1 + m, some (List.range m)⟩,
       (List.range m).map (fun e => Event.call (RCall.sendKeysElem e ks)), none⟩ := by
    have h0 := @sendKeysElems_local (elemLocalOracle m j ek) ks 0 hlocal
      (List.range m) ⟨1, some (List.range m)⟩
    simpa [execInstr, sendInstr, Value.asKeys, lt_self_iff_false, joinMapSingle] using h0
  have hscript : execInstr (elemLocalOracle m j ek) ⟨1 + m, some (List.range m)⟩
      (scriptInstr "s") =
      ⟨⟨1 + m + 1, some (List.range m)⟩, [Event.call (RCall.execScript "s")],
       none⟩ := rfl
  have hgo : exploreGo (elemLocalOracle m j ek)
      [findInstr, sendInstr ks 0 1, scriptInstr "s"] initState =
      ⟨⟨1 + m + 1, some (List.range m)⟩,
       Event.call (RCall.findElements "xpath" ".//*") ::
         ((List.range m).map (fun e => Event.call (RCall.sendKeysElem e ks)) ++
           [Event.call (RCall.execScript "s")]),
       3, none⟩ := by
    simp [exploreGo, hfind, hsend, hscript]
  exact explore_of_go_ok hgo

/-- Witness for C5 at m = 2 elements with a stale-element error on the
first element. -/
theorem claim_C5_witness :
    explore (elemLocalOracle 2 0 ErrKind.staleElement)
      [findInstr, sendInstr ["a"] 0 1, scriptInstr "s"] =
      Except.ok ⟨true, 3,
        Event.call (RCall.findElements "xpath" ".//*") ::
          ((List.range 2).map (fun e => Event.call (RCall.sendKeysElem e ["a"])) ++
            [Event.call (RCall.execScript "s")]),
        some (List.range 2)⟩ :=
  claim_C5_element_local 2 0 ["a"] ErrKind.staleElement (by decide) (Or.inr rfl)

/-- Claim C10: with an Element Selection of m handles and delay d > 0, a
SEND_KEYS instruction sends the key sequence exactly once per element —
whatever its runs field is — and the wait primitive runs once after each
element, including the element whose send failed with a suppressed
element-local error. -/
theorem claim_C10_per_element_send (m j runs : Nat) (ks : List String) (d : ℚ)
    (ek : ErrKind) (hj : j < m) (hd : 0 < d)
    (hek : ek = ErrKind.notInteractable ∨ ek = ErrKind.staleElement) :
    explore (elemLocalOracle m j ek) [findInstr, sendInstr ks d runs] =
      Except.ok ⟨true, 2,
        Event.call (RCall.findElements "xpath" ".//*") ::
          ((List.range m).map
            (fun e => [Event.call (RCall.sendKeysElem e ks), Event.wait d])).flatten,
        some (List.range m)⟩ := by
  have hlocal : ∀ n e k, elemLocalOracle m j ek n (RCall.sendKeysElem e ks) = ROut.err k →
      k.isElementLocal = true := fun n e k h => elemLocalOracle_local hek n e ks k h
  have hfind : execInstr (elemLocalOracle m j ek) initState findInstr =
      ⟨⟨1, some (List.range m)⟩, [Event.call (RCall.findElements "xpath" ".//*")],
       none⟩ := rfl
  have hsend : execInstr (elemLocalOracle m j ek) ⟨1, some (List.range m)⟩
      (sendInstr ks d runs) =
      ⟨⟨1 + m, some (List.range m)⟩,
       ((List.range m).map
         (fun e => [Event.call (RCall.sendKeysElem e ks), Event.wait d])).flatten,
       none⟩ := by
    have h0 := @sendKeysElems_local (elemLocalOracle m j ek) ks d hlocal
      (List.range m) ⟨1, some (List.range m)⟩
    simpa [execInstr, sendInstr, Value.asKeys, hd] using h0
  have hgo : exploreGo (elemLocalOracle m j ek) [findInstr, sendInstr ks d runs]
      initState =
      ⟨⟨1 + m, some (List.range m)⟩,
       Event.call (RCall.findElements "xpath" ".//*") ::
         ((List.range m).map
           (fun e => [Event.call (RCall.sendKeysElem e ks), Event.wait d])).flatten,
       2, none⟩ := by
    simp [exploreGo, hfind, hsend]
  exact explore_of_go_ok hgo

/-- Witness for C10 at m = 2 elements, runs = 5, delay 1, with a
not-interactable error on the first element. -/
theorem claim_C10_witness :
    explore (elemLocalOracle 2 0 ErrKind.notInteractable)
      [findInstr, sendInstr ["a"] 1 5] =
      Except.ok ⟨true, 2,
        Event.call (RCall.findElements "xpath" ".//*") ::
          ((List.range 2).map
            (fun e => [Event.call (RCall.sendKeysElem e ["a"]), Event.wait 1])).flatten,
        some (List.range 2)⟩ :=
  claim_C10_per_element_send 2 0 5 ["a"] 1 ErrKind.notInteractable (by decide)
    (by norm_num) (Or.inl rfl)

end PE
